import Mathlib

/-!
Shallow embedding of the heuristic scoring / insight engine of the
`youtube-audit` repository (`src/app.py`, `src/pdf_report.py`).

Conventions of the embedding:
* Python strings are `List Char` (Python `len` counts code points, as does
  `List.length`).
* Python floats are modelled as exact rationals `ℚ`; standard deviations,
  which need a square root, live in `ℝ` (`Real.sqrt` of a rational
  variance).  `Float` rounding noise is outside the model.
* Missing values (`None`, pandas `NaN`) are `Option`.
* `round(x, n)` (Python / numpy / pandas) rounds half to even; `int(x)`
  truncates toward zero.
-/

namespace YTAudit

/-- Python-style string: a list of characters. -/
abbrev Str : Type := List Char

/-- Round half to even to an integer (semantics of Python `round`,
numpy/pandas `.round`, modeled over an exact ordered field). -/
def rhe (x : ℚ) : ℤ :=
  if Int.fract x < 1 / 2 then ⌊x⌋
  else if 1 / 2 < Int.fract x then ⌈x⌉
  else if Even ⌊x⌋ then ⌊x⌋ else ⌊x⌋ + 1

/-- Python `round(x, 2)`. -/
def round2 (x : ℚ) : ℚ := (rhe (x * 100) : ℚ) / 100

/-- Python `round(x, 1)` / pandas `.round(1)`. -/
def round1 (x : ℚ) : ℚ := (rhe (x * 10) : ℚ) / 10

/-- Python `int(x)` on a float: truncation toward zero. -/
def pyTrunc (x : ℚ) : ℤ := if x < 0 then ⌈x⌉ else ⌊x⌋

/-- pandas `Series.clip(lo, hi)` on one value. -/
def clip (lo hi x : ℚ) : ℚ := min hi (max lo x)

/-! ### Raw video rows (`fetch_video_stats` output, app.py:297-324)

`views` is always an `int`; `likes` / `comments` are `np.nan` when the API
omits them, hence `Option`. -/

structure RawRow where
  title : Str
  description : Str
  views : ℕ
  likes : Option ℕ
  comments : Option ℕ

/-! ### `engagement_rates` (app.py:346-354)

`out["likes"] / out["views"].replace(0, np.nan) * 100`, then `.round(2)`.
`replace(0, np.nan)` is the `Option`-valued view count below; any `NaN`
operand propagates, which `Option.bind`/`Option.map` model. -/

/-- `views.replace(0, np.nan)` on one row. -/
def viewsRepl0 (views : ℕ) : Option ℚ := if views = 0 then none else some (views : ℚ)

/-- One output column of `engagement_rates`: `count / views.replace(0,nan) * 100`,
rounded to 2 decimals, `NaN` (`none`) propagating. -/
def rateCol (count : Option ℕ) (views : ℕ) : Option ℚ :=
  count.bind fun c => (viewsRepl0 views).map fun v => round2 ((c : ℚ) / v * 100)

/-- `engagement_rates` on one row: the added `like_rate_%` and
`comment_rate_%` columns. -/
def engagement_rates (r : RawRow) : Option ℚ × Option ℚ :=
  (rateCol r.likes r.views, rateCol r.comments r.views)

/-! ### `_dup_pen` (app.py:376-384)

`re.findall(r"[a-z']{3,}", s.lower())` returns the maximal runs, of length
at least 3, of characters drawn from `a`-`z` and the apostrophe, over the
lowercased title; the penalty is `max(peak_count - 2, 0)` where
`pd.Series(words).value_counts().iloc[0]` is the count of the most frequent
token. -/

/-- Character class `[a-z']` of the `_dup_pen` token regex. -/
def dupChar (c : Char) : Bool :=
  (97 ≤ c.toNat && c.toNat ≤ 122) || c.toNat == 39

/-- Accumulator pass splitting a character list into its maximal `dupChar`
runs of length ≥ 3 (the semantics of greedy `re.findall(r"[a-z']{3,}", ·)`). -/
def tokensAux : List Char → List Char → List Str
  | cur, [] => if 3 ≤ cur.length then [cur.reverse] else []
  | cur, c :: rest =>
    if dupChar c then tokensAux (c :: cur) rest
    else (if 3 ≤ cur.length then [cur.reverse] else []) ++ tokensAux [] rest

/-- `re.findall(r"[a-z']{3,}", s.lower())`. -/
def pyTokens (s : Str) : List Str := tokensAux [] (s.map Char.toLower)

/-- Number of occurrences of token `w` in the token list. -/
def countOcc (w : Str) (ws : List Str) : ℕ := (ws.filter (· = w)).length

/-- `pd.Series(words).value_counts().iloc[0]`: the highest occurrence count
(0 for the empty list). -/
def peakFreq (ws : List Str) : ℕ := (ws.map (fun w => countOcc w ws)).foldr max 0

/-- `_dup_pen`: `max(peak - 2, 0)`, with 0 on an empty token list. -/
def dup_pen (s : Str) : ℤ :=
  let words := pyTokens s
  if words = [] then 0 else max ((peakFreq words : ℤ) - 2) 0

/-! ### Regex predicates of the SEO scorer (app.py:428-443)

`\b` in Python's `re` separates a word character `[A-Za-z0-9_]` from a
non-word character (ASCII model). A search succeeds iff a match exists at
some position, which the scanners below decide. -/

/-- Regex word character `[A-Za-z0-9_]`. -/
def wordChar (c : Char) : Bool := c.isAlpha || c.isDigit || c == '_'

/-- The fixed `_POWER` vocabulary (app.py:428-431). -/
def powerWords : List Str :=
  ["best", "secret", "fast", "simple", "ultimate", "new", "proof", "free",
   "easy", "guide", "mistake", "hack", "win", "earn", "rich", "money",
   "truth", "behind", "strategy", "blueprint"].map String.toList

/-- Word `w` matches at the head of `l`, with a word boundary after it. -/
def wordAt (w : Str) (l : List Char) : Bool :=
  w.isPrefixOf l &&
    (match l.drop w.length with
     | [] => true
     | c :: _ => !wordChar c)

/-- Scan for `\b(<vocabulary word>)\b`; the flag records whether the
previous character was a word character. -/
def powerScan : Bool → List Char → Bool
  | _, [] => false
  | prevW, c :: rest =>
    (!prevW && powerWords.any (fun w => wordAt w (c :: rest)))
    || powerScan (wordChar c) rest

/-- `_POWER.search(title)` (case-insensitive, via lowercasing). -/
def hasPowerWord (s : Str) : Bool := powerScan false (s.map Char.toLower)

/-- `_has_number`: `any(ch.isdigit() for ch in s)`. -/
def hasNumber (s : Str) : Bool := s.any Char.isDigit

/-- `_has_link`: `re.search(r"https?://", s)`. -/
def hasLink : List Char → Bool
  | [] => false
  | c :: rest =>
    ("http://".toList.isPrefixOf (c :: rest)
      || "https://".toList.isPrefixOf (c :: rest))
    || hasLink rest

/-- Word boundary at the head of the remaining input. -/
def boundAfter : List Char → Bool
  | [] => true
  | c :: _ => !wordChar c

/-- `\d{1,2}:\d{2}\b` matches at the head of the input (both the two-digit
and the one-digit alternative of the `{1,2}` counter). -/
def chapAt : List Char → Bool
  | a :: b :: c :: d :: e :: rest =>
    (a.isDigit && b.isDigit && c == ':' && d.isDigit && e.isDigit
      && boundAfter rest)
    || (a.isDigit && b == ':' && c.isDigit && d.isDigit
      && boundAfter (e :: rest))
  | [a, b, c, d] => a.isDigit && b == ':' && c.isDigit && d.isDigit
  | _ => false

/-- Scan for `\b\d{1,2}:\d{2}\b`. -/
def chapScan : Bool → List Char → Bool
  | _, [] => false
  | prevW, c :: rest => (!prevW && chapAt (c :: rest)) || chapScan (wordChar c) rest

/-- `_has_chapters`: `re.search(r"\b\d{1,2}:\d{2}\b", s)`. -/
def hasChapters (s : Str) : Bool := chapScan false s

/-! ### `seo_score_row` (app.py:446-496) -/

/-- The `notes` dictionary of `seo_score_row`. -/
structure SeoNotes where
  title_len_ok : Bool
  power_word : Bool
  has_number : Bool
  dup_penalty : ℤ
  desc_len_ok : Bool
  chapters : Bool
  links : Bool
  like_rate_pct : ℚ
  comment_rate_pct : ℚ

/-- `seo_score_row(title, desc, like_rate, comment_rate, dup_penalty)`.
`none` for a rate models both Python `None` (caught by `or 0.0`) and `NaN`
(caught by `max(0.0, ·)`, since `max(0.0, nan) = 0.0`). -/
def seo_score_row (title desc : Str) (like_rate comment_rate : Option ℚ)
    (dup_penalty : ℤ) : ℤ × SeoNotes :=
  let ok_len := decide (45 ≤ title.length) && decide (title.length ≤ 70)
  let pw := hasPowerWord title
  let num := hasNumber title
  let ptsTitle : ℤ :=
    (if ok_len then 12 else 0) + (if pw then 10 else 0)
    + (if num then 8 else 0) + (if dup_penalty = 0 then 10 else 0)
  let long_desc := decide (200 ≤ desc.length)
  let chap := hasChapters desc
  let links := hasLink desc
  let ptsDesc : ℤ :=
    (if long_desc then 15 else 0) + (if chap then 10 else 0)
    + (if links then 10 else 0)
  let lr : ℚ := max 0 (like_rate.getD 0)
  let cr : ℚ := max 0 (comment_rate.getD 0)
  let pts : ℤ := ptsTitle + ptsDesc
    + pyTrunc (min lr 5 / 5 * 18) + pyTrunc (min cr 1 / 1 * 7)
  (min 100 pts,
   ⟨ok_len, pw, num, dup_penalty, long_desc, chap, links, lr, cr⟩)

/-! ### `improvements_for_video` (app.py:518-555) -/

/-- Inputs read from the video dict `v`: `v.get("title","") or ""`,
`v.get("description","") or ""`, `int(v.get("views") or 0)`,
`int(v.get("comments") or 0)`. -/
structure TipInput where
  title : Str
  description : Str
  views : ℤ
  comments : ℤ

def tipNumber : String := "Add one number to the title to anchor the promise."

def tipLengthen : String := "Lengthen title to ~55 chars with a clear outcome."

def tipTrim : String := "Trim title to <=70 chars. Remove filler words."

def tipPower : String := "Add one power word (e.g., ‘ultimate’, ‘simple’, ‘proven’)."

def tipDesc : String := "Extend description to >200 chars with 1–2 links near the top."

def tipChapters : String := "Add chapters (timestamps) for navigation."

def tipLink : String := "Include one clear CTA link in the first 3 lines."

def tipPin : String := "Pin a question and reply to the first 5 comments."

def tipThumb : String := "Test a stronger thumbnail: big face + 2–4 words + strong contrast."

def tipFallback : String := "Solid baseline. Split-test title and thumbnail for 24h."

/-- The `tips` list as the source builds it (sequential `if` blocks; the
title-length pair is an `if`/`elif`). -/
def codeTips (v : TipInput) (median_views : ℤ) : List String :=
  (if ¬ hasNumber v.title then [tipNumber] else [])
  ++ (if v.title.length < 45 then [tipLengthen]
      else if 70 < v.title.length then [tipTrim] else [])
  ++ (if ¬ hasPowerWord v.title then [tipPower] else [])
  ++ (if v.description.length < 200 then [tipDesc] else [])
  ++ (if ¬ hasChapters v.description then [tipChapters] else [])
  ++ (if ¬ hasLink v.description then [tipLink] else [])
  ++ (if v.comments = 0 then [tipPin] else [])
  ++ (if (v.views : ℚ) < max 1000 (8 / 10 * (median_views : ℚ)) then [tipThumb]
      else [])

/-- The dedup loop over `seen`: keep the first occurrence of each tip. -/
def ddAux (seen : List String) : List String → List String
  | [] => []
  | t :: ts => if t ∈ seen then ddAux seen ts else t :: ddAux (t :: seen) ts

/-- `improvements_for_video`: dedup, cap at 6, fall back to one tip. -/
def improvements_for_video (v : TipInput) (median_views : ℤ) : List String :=
  let out := (ddAux [] (codeTips v median_views)).take 6
  if out = [] then [tipFallback] else out

/-- The ordered rule table of the Improvement Advisor, as the spec
describes it: independent predicate/tip pairs in fixed order. -/
def ruleTable (v : TipInput) (median_views : ℤ) : List (Bool × String) :=
  [(!hasNumber v.title, tipNumber),
   (decide (v.title.length < 45), tipLengthen),
   (decide (70 < v.title.length), tipTrim),
   (!hasPowerWord v.title, tipPower),
   (decide (v.description.length < 200), tipDesc),
   (!hasChapters v.description, tipChapters),
   (!hasLink v.description, tipLink),
   (decide (v.comments = 0), tipPin),
   (decide ((v.views : ℚ) < max 1000 (8 / 10 * (median_views : ℚ))), tipThumb)]

/-- The tips of the rules that fire, in rule order. -/
def firedTips (v : TipInput) (median_views : ℤ) : List String :=
  ((ruleTable v median_views).filter (·.1)).map (·.2)

/-! ### `view_velocity` (app.py:357-367)

The source reads `now = datetime.now(timezone.utc)` INSIDE the function:
the Python signature is `view_velocity(df)`, with no time parameter. The
`now` argument below models that ambient wall-clock read (epoch seconds);
it is an input of the embedding, not of the Python function.
`published` is `none` when `pd.to_datetime(..., errors="coerce")` yields
`NaT`; arithmetic on `NaT`/`NaN` propagates, hence `Option.map`
(pandas `clip(lower=1)` keeps `NaN` as `NaN`). -/

structure VelRow where
  views : ℕ
  published : Option ℤ

/-- The `age_min` column: `(now - published_dt).total_seconds() / 60`. -/
def ageCol (now : ℤ) (rows : List VelRow) : List (Option ℚ) :=
  rows.map fun r => r.published.map fun p => ((now - p : ℤ) : ℚ) / 60

/-- `view_velocity`: per row, the `(age_min, views_per_min)` columns, with
`views_per_min = (views / age_min.clip(lower=1)).round(2)`. -/
def view_velocity (now : ℤ) (rows : List VelRow) : List (Option ℚ × Option ℚ) :=
  List.zipWith
    (fun r a => (a, a.map fun x => round2 ((r.views : ℚ) / max x 1)))
    rows (ageCol now rows)

/-! ### `top_drop_insights` (app.py:778-797) -/

/-- One row of the retention curve dataframe
(`elapsedVideoTimeRatio`, `audienceWatchRatio`). -/
structure RetenRow where
  elapsedR : ℚ
  watchR : ℚ
deriving DecidableEq

/-- `Series.diff().fillna(0.0)`: first entry 0, then consecutive
differences. -/
def diffFill0 : List ℚ → List ℚ
  | [] => []
  | x :: xs => 0 :: List.zipWith (fun b a => b - a) xs (x :: xs)

/-- Insert while keeping ascending `key` order; an element goes before the
first strictly larger key, so equal keys keep their original order
(`nsmallest` resolves ties by position, `keep="first"`). -/
def insertAsc {α : Type} (key : α → ℚ) (x : α) : List α → List α
  | [] => [x]
  | y :: ys => if key x ≤ key y then x :: y :: ys else y :: insertAsc key x ys

/-- Stable ascending sort by `key`. -/
def sortAsc {α : Type} (key : α → ℚ) : List α → List α
  | [] => []
  | x :: xs => insertAsc key x (sortAsc key xs)

/-- The recommendation bucket chosen from the elapsed second offset. -/
def retenTip (t : ℤ) : String :=
  if t ≤ 10 then "open with a stronger hook, quick payoff in 0–10s"
  else if t ≤ 30 then "tighten intro, cut filler, show the outcome earlier"
  else if t ≤ 60 then "restate value, add motion/B-roll, remove a dead sentence"
  else "refresh pacing or add pattern-break (graphic, jump-cut, reveal)"

/-- Python `f"{x:.1f}"` for a non-negative value: round half to even at one
decimal and print one digit after the point. -/
def fmt1 (x : ℚ) : String :=
  let m := rhe (x * 10)
  toString (m / 10) ++ "." ++ toString (m % 10)

/-- The row of `nsmallest` paired with its `drop` value, rendered to the
insight line of the source. -/
def insightLine (video_secs : ℤ) (p : RetenRow × ℚ) : String :=
  let t : ℤ := rhe (p.1.elapsedR * (video_secs : ℚ))
  let pct : ℚ := max 0 (-p.2 * 100)
  "~" ++ fmt1 pct ++ "% viewers dropped near " ++ toString t ++ "s → "
    ++ retenTip t ++ "."

/-- Rows of the curve paired with the `drop` column. -/
def withDrop (rows : List RetenRow) : List (RetenRow × ℚ) :=
  rows.zip (diffFill0 (rows.map (·.watchR)))

/-- `d.nsmallest(k, "drop")`. -/
def nsmallestDrop (rows : List RetenRow) (k : ℕ) : List (RetenRow × ℚ) :=
  (sortAsc (fun p => p.2) (withDrop rows)).take k

/-- `top_drop_insights(df, video_secs, k)`. -/
def top_drop_insights (rows : List RetenRow) (video_secs : ℤ) (k : ℕ) :
    List String :=
  if rows = [] ∨ video_secs ≤ 0 then []
  else (nsmallestDrop rows k).map (insightLine video_secs)

/-! ### Real-valued helpers

Standard deviations need a square root, so the health and cadence scores
live in `ℝ`. These mirror `rhe`/`pyTrunc`/`clip` over `ℝ`. -/

noncomputable section

/-- Round half to even on `ℝ` (Python `round`, numpy `.round`). -/
def rheR (x : ℝ) : ℤ :=
  if Int.fract x < 1 / 2 then ⌊x⌋
  else if 1 / 2 < Int.fract x then ⌈x⌉
  else if Even ⌊x⌋ then ⌊x⌋ else ⌊x⌋ + 1

/-- pandas `.round(1)` on `ℝ`. -/
def round1R (x : ℝ) : ℝ := (rheR (x * 10) : ℝ) / 10

/-- Python `int(x)` on `ℝ`. -/
def pyTruncR (x : ℝ) : ℤ := if x < 0 then ⌈x⌉ else ⌊x⌋

/-- `Series.clip(lo, hi)` on `ℝ`. -/
def clipR (lo hi x : ℝ) : ℝ := min hi (max lo x)

end

/-! ### Per-video health (app.py:862-874)

One row of the audited batch, after the metric-derivation columns: the
`views_per_min`, `like_rate_%` (`NaN` = `none`), `dup_word_penalty` and
`title_ok_len` columns that `health_100` reads. In exact arithmetic the
population std of a non-empty batch is a well-defined non-negative real
and the z-scores are finite whenever it is non-zero, so the source's
`np.isnan(std)` test and `replace([inf,-inf],nan).fillna(0)` post-pass
have nothing to catch. -/

structure HRow where
  vpm : ℚ
  likeRate : Option ℚ
  dupPen : ℤ
  titleOk : Bool

noncomputable section

/-- `df["views_per_min"].mean()`. -/
def vpmMean (b : List HRow) : ℝ :=
  (((b.map (·.vpm)).sum : ℚ) : ℝ) / (b.length : ℝ)

/-- Population variance of `views_per_min` (`std(ddof=0)` squared). -/
def vpmPopVar (b : List HRow) : ℝ :=
  ((b.map (·.vpm)).map fun x => ((x : ℝ) - vpmMean b) ^ 2).sum / (b.length : ℝ)

/-- `df["views_per_min"].std(ddof=0)`. -/
def vpmStd (b : List HRow) : ℝ := Real.sqrt (vpmPopVar b)

/-- The `vpm_z` column: 0 everywhere when the std is 0, else the z-score. -/
def vpmZCol (b : List HRow) : List ℝ :=
  if vpmStd b = 0 then b.map fun _ => 0
  else b.map fun v => ((v.vpm : ℝ) - vpmMean b) / vpmStd b

/-- The `health_100` column (app.py:869-874): the pandas column expression
evaluated row by row against the `vpm_z` column. -/
def health_100 (b : List HRow) : List ℝ :=
  List.zipWith
    (fun v z =>
      clipR 0 100 (round1R
        ((clipR (-2) 3 z + 2) / 5 * 60
          + clipR 0 5 ((v.likeRate.getD 0 : ℚ) : ℝ) * 4
          - clipR 0 3 ((v.dupPen : ℤ) : ℝ) * 3
          + (if v.titleOk then 1 else 0) * 5)))
    b (vpmZCol b)

/-- The z-score of one value, as the spec states it. -/
def vpm_zscore (b : List HRow) (x : ℚ) : ℝ :=
  if vpmStd b = 0 then 0 else ((x : ℝ) - vpmMean b) / vpmStd b

/-- The per-video health formula of the spec, for one row. -/
def healthSpec (b : List HRow) (v : HRow) : ℝ :=
  clipR 0 100 (round1R
    ((clipR (-2) 3 (vpm_zscore b v.vpm) + 2) / 5 * 60
      + clipR 0 5 ((v.likeRate.getD 0 : ℚ) : ℝ) * 4
      - clipR 0 3 ((v.dupPen : ℤ) : ℝ) * 3
      + (if v.titleOk then 5 else 0)))

end

/-! ### `cadence_stats` (app.py:388-411)

Timestamps are epoch seconds; `none` models an unparseable entry
(`errors="coerce"` → `NaT`, dropped by `dropna`). The best-day/best-hour
mode fields are not modelled (no claim touches them). -/

/-- `pd.to_datetime(...).sort_values().dropna()`. -/
def parsedSorted (ts : List (Option ℤ)) : List ℤ :=
  sortAsc (fun t => (t : ℚ)) (ts.filterMap id)

/-- The consecutive gaps in days (`d.diff()` without its leading `NaN`). -/
def gapsDays (ts : List (Option ℤ)) : List ℚ :=
  List.zipWith (fun b a => ((b - a : ℤ) : ℚ) / 86400)
    (parsedSorted ts).tail (parsedSorted ts)

/-- pandas `Series.median()` of a non-empty list. -/
def medianQ (l : List ℚ) : ℚ :=
  let s := sortAsc id l
  if l.length % 2 = 1 then s.getD (l.length / 2) 0
  else (s.getD (l.length / 2 - 1) 0 + s.getD (l.length / 2) 0) / 2

/-- `uploads_week = round(7.0 / gaps.median(), 2)` when some gap exists,
else 0.0. Sorted timestamps make every gap, hence the median, non-negative,
and Python float division `7.0/0.0` is `+inf`, which `round` keeps:
`none` encodes that `+inf`, `some` a finite value. -/
def uploadsWeek (ts : List (Option ℤ)) : Option ℚ :=
  if gapsDays ts = [] then some 0
  else if medianQ (gapsDays ts) = 0 then none
  else some (round2 (7 / medianQ (gapsDays ts)))

/-- `median_gap_days = round(gaps.median(), 2)` (`NaN` without gaps). -/
def medianGapDays (ts : List (Option ℤ)) : Option ℚ :=
  if gapsDays ts = [] then none else some (round2 (medianQ (gapsDays ts)))

/-- Sample variance (`Series.std()` squared, `ddof=1`); meaningful for
lists of length at least 2. -/
def sampleVarQ (l : List ℚ) : ℚ :=
  (l.map fun x => (x - l.sum / l.length) ^ 2).sum / ((l.length : ℚ) - 1)

/-- `freq = min(1.0, uploads_week / 3.0)`; on the `+inf` encoding
`min(1.0, inf / 3.0) = 1.0`. -/
def freqTerm (ts : List (Option ℤ)) : ℚ :=
  (uploadsWeek ts).elim 1 fun u => min 1 (u / 3)

noncomputable section

/-- `var = gaps.std() if gaps.notna().sum() >= 2 else 5.0`. -/
def gapStd (ts : List (Option ℤ)) : ℝ :=
  if (gapsDays ts).length < 2 then 5
  else Real.sqrt ((sampleVarQ (gapsDays ts) : ℚ) : ℝ)

/-- `consistency_100`: `int((0.7*freq + 0.3*(1/(1+var))) * 100)`, 0 for an
empty timestamp list. -/
def consistency100 (ts : List (Option ℤ)) : ℤ :=
  if parsedSorted ts = [] then 0
  else pyTruncR ((0.7 * (freqTerm ts : ℝ) + 0.3 * (1 / (1 + gapStd ts))) * 100)

end

/-! ### Helper lemmas on `peakFreq` -/

theorem foldr_max_le (l : List ℕ) (n : ℕ) (h : ∀ x ∈ l, x ≤ n) :
    l.foldr max 0 ≤ n := by
  induction l with
  | nil => exact Nat.zero_le n
  | cons a t ih =>
    exact max_le (h a (List.mem_cons_self a t))
      (ih fun x hx => h x (List.mem_cons_of_mem a hx))

theorem le_foldr_max (l : List ℕ) (x : ℕ) (h : x ∈ l) : x ≤ l.foldr max 0 := by
  induction l with
  | nil => cases h
  | cons a t ih =>
    rcases List.mem_cons.mp h with rfl | hx
    · exact le_max_left _ _
    · exact le_trans (ih hx) (le_max_right _ _)

theorem peakFreq_le (ws : List Str) (n : ℕ) (h : ∀ w ∈ ws, countOcc w ws ≤ n) :
    peakFreq ws ≤ n := by
  apply foldr_max_le
  intro x hx
  rcases List.mem_map.mp hx with ⟨w, hw, rfl⟩
  exact h w hw

theorem le_peakFreq (ws : List Str) (w : Str) (h : w ∈ ws) :
    countOcc w ws ≤ peakFreq ws :=
  le_foldr_max _ _ (List.mem_map.mpr ⟨w, h, rfl⟩)

theorem mem_of_countOcc_pos (ws : List Str) (w : Str) (h : 0 < countOcc w ws) :
    w ∈ ws := by
  by_contra hw
  have : countOcc w ws = 0 := by
    unfold countOcc
    rw [List.length_eq_zero, List.filter_eq_nil_iff]
    intro a ha hedec
    have haw : a = w := by simpa using hedec
    exact hw (haw ▸ ha)
  omega

theorem pyTrunc_eq_floor (x : ℚ) (h : 0 ≤ x) : pyTrunc x = ⌊x⌋ := by
  unfold pyTrunc
  rw [if_neg (not_lt.mpr h)]

/-! ### Helper lemmas for the Improvement Advisor -/

theorem ddAux_spec (l : List String) : ∀ seen : List String,
    (∀ x ∈ ddAux seen l, x ∉ seen) ∧ (ddAux seen l).Nodup := by
  induction l with
  | nil => intro seen; simp [ddAux]
  | cons t ts ih =>
    intro seen
    unfold ddAux
    by_cases h : t ∈ seen
    · simpa [h] using ih seen
    · simp only [h, if_false]
      refine ⟨?_, ?_⟩
      · intro x hx
        rcases List.mem_cons.mp hx with rfl | hx
        · exact h
        · exact fun hs => (ih (t :: seen)).1 x hx (List.mem_cons_of_mem t hs)
      · exact List.nodup_cons.mpr
          ⟨fun hmem => (ih (t :: seen)).1 t hmem (List.mem_cons_self t seen),
           (ih (t :: seen)).2⟩

theorem ddAux_ne_nil (t : String) (ts : List String) : ddAux [] (t :: ts) ≠ [] := by
  unfold ddAux
  simp

theorem filter_map_ruleList (l : List (Bool × String)) :
    (l.filter (·.1)).map (·.2) =
      l.foldr (fun r acc => (if r.1 = true then [r.2] else []) ++ acc) [] := by
  induction l with
  | nil => rfl
  | cons a t ih =>
    obtain ⟨b, s⟩ := a
    cases b <;> simp [List.filter_cons, ih]

theorem bool_not_coe_iff (b : Bool) : (¬ b = true) ↔ (b = false) := by
  cases b <;> simp

theorem codeTips_eq_firedTips (v : TipInput) (m : ℤ) :
    codeTips v m = firedTips v m := by
  unfold codeTips firedTips ruleTable
  rw [filter_map_ruleList]
  simp only [List.foldr_cons, List.foldr_nil, Bool.not_eq_true',
    bool_not_coe_iff, decide_eq_true_eq, List.append_nil, List.nil_append,
    List.append_assoc]
  by_cases h1 : v.title.length < 45
  · have h2 : ¬ 70 < v.title.length := by omega
    simp only [if_pos h1, if_neg h2, List.nil_append, List.append_nil]
  · simp only [if_neg h1, List.nil_append]

/-! ### Channel Health in `build_youtube_audit_pdf` (pdf_report.py:273-298)

Video dict fields are `Option ℚ`; `_avg` keeps the present values and
returns 0.0 on an empty selection. -/

structure PdfVideo where
  views : Option ℚ
  likes : Option ℚ
  comments : Option ℚ
  watch_time_hours : Option ℚ
  ctr : Option ℚ
  seo_score : Option ℚ

/-- `statistics.mean`, with the source's empty-list guard (`_avg` returns
0.0 when nothing survives the filter). -/
def listAvg (l : List ℚ) : ℚ := if l = [] then 0 else l.sum / l.length

/-- `_avg` (pdf_report.py:42-44): drop the missing entries, average the
rest. -/
def pdfAvg (l : List (Option ℚ)) : ℚ := listAvg (l.filterMap id)

def avgWt (vs : List PdfVideo) : ℚ := pdfAvg (vs.map (·.watch_time_hours))

def avgCtr (vs : List PdfVideo) : ℚ := pdfAvg (vs.map (·.ctr))

def avgSeo (vs : List PdfVideo) : ℚ := pdfAvg (vs.map (·.seo_score))

/-- `er_list`: `(likes+comments)/views*100` over the videos with positive
views (`v.get(...) or 0` defaults). -/
def erList (vs : List PdfVideo) : List ℚ :=
  vs.filterMap fun v =>
    if 0 < v.views.getD 0 then
      some ((v.likes.getD 0 + v.comments.getD 0) / v.views.getD 0 * 100)
    else none

def pillarContent (vs : List PdfVideo) : ℚ := min 100 (avgSeo vs)

def pillarEngagement (vs : List PdfVideo) : ℚ :=
  if erList vs ≠ [] then max 0 (min 100 (listAvg (erList vs) * 2))
  else max 0 (min 100 (avgCtr vs))

/-- `pillars["Consistency"] = 70` (a placeholder constant in the source). -/
def pillarConsistency : ℚ := 70

/-- `min(100, avg_ctr*10) if avg_ctr else min(100, avg_seo*0.9)`
(`avg_ctr` is falsy exactly when it is 0.0). -/
def pillarSeoDisc (vs : List PdfVideo) : ℚ :=
  if avgCtr vs ≠ 0 then min 100 (avgCtr vs * 10) else min 100 (avgSeo vs * (9 / 10))

def pillarRet (vs : List PdfVideo) : ℚ := min 100 (50 + avgWt vs * 5)

/-- The `pillars` dict in insertion order. -/
def pillarsList (vs : List PdfVideo) : List (String × ℚ) :=
  [("Content Optimization", pillarContent vs),
   ("Engagement", pillarEngagement vs),
   ("Consistency", pillarConsistency),
   ("SEO/Discoverability", pillarSeoDisc vs),
   ("Retention", pillarRet vs)]

/-- The `weights` dict. -/
def weightOf (n : String) : ℚ :=
  if n = "Content Optimization" then 25
  else if n = "Engagement" then 20
  else if n = "Consistency" then 15
  else if n = "SEO/Discoverability" then 20
  else if n = "Retention" then 20
  else 0

/-- `overall = sum(pillars[k]*weights[k] for k in pillars)/100.0`. -/
def overallHealth (vs : List PdfVideo) : ℚ :=
  ((pillarsList vs).map fun p => p.2 * weightOf p.1).sum / 100

/-! ### Helper lemmas for retention and velocity -/

theorem diffFill0_length (l : List ℚ) : (diffFill0 l).length = l.length := by
  cases l with
  | nil => rfl
  | cons x xs => simp [diffFill0]

theorem insertAsc_length {α : Type} (key : α → ℚ) (x : α) (l : List α) :
    (insertAsc key x l).length = l.length + 1 := by
  induction l with
  | nil => rfl
  | cons y ys ih =>
    unfold insertAsc
    by_cases h : key x ≤ key y
    · simp [h]
    · simp [h, ih]

theorem sortAsc_length {α : Type} (key : α → ℚ) (l : List α) :
    (sortAsc key l).length = l.length := by
  induction l with
  | nil => rfl
  | cons x xs ih => simp [sortAsc, insertAsc_length, ih]

theorem fmt1_zero : fmt1 0 = "0.0" := by
  have h : rhe 0 = 0 := by
    unfold rhe
    norm_num
  unfold fmt1
  norm_num [h]
  rfl

theorem zipWith_map_self {α β γ : Type} (f : α → β → γ) (g : α → β)
    (l : List α) : List.zipWith f l (l.map g) = l.map fun x => f x (g x) := by
  induction l with
  | nil => rfl
  | cons x xs ih => simp [ih]

/-! ### Cast lemmas between the rational and real rounding helpers -/

theorem pyTruncR_ratCast (q : ℚ) : pyTruncR ((q : ℝ)) = pyTrunc q := by
  unfold pyTruncR pyTrunc
  by_cases h : q < 0
  · rw [if_pos (by exact_mod_cast h), if_pos h, Rat.ceil_cast]
  · rw [if_neg (by exact_mod_cast h), if_neg h, Rat.floor_cast]

theorem fract_ratCast (q : ℚ) : Int.fract ((q : ℝ)) = ((Int.fract q : ℚ) : ℝ) := by
  unfold Int.fract
  push_cast [Rat.floor_cast]
  ring

theorem rheR_ratCast (q : ℚ) : rheR ((q : ℝ)) = rhe q := by
  unfold rheR rhe
  rw [fract_ratCast, Rat.floor_cast, Rat.ceil_cast]
  have h1 : (((Int.fract q : ℚ) : ℝ) < 1 / 2) ↔ Int.fract q < 1 / 2 := by
    rw [show ((1 : ℝ) / 2) = (((1 : ℚ) / 2 : ℚ) : ℝ) by norm_num]
    exact_mod_cast Iff.rfl
  have h2 : ((1 : ℝ) / 2 < ((Int.fract q : ℚ) : ℝ)) ↔ 1 / 2 < Int.fract q := by
    rw [show ((1 : ℝ) / 2) = (((1 : ℚ) / 2 : ℚ) : ℝ) by norm_num]
    exact_mod_cast Iff.rfl
  simp only [h1, h2]

/-! ### Claim theorems -/

/-- Claim C1: `seo_score_row` returns the sum of the rubric awards (title:
+12 for length 45-70, +10 for a power word, +8 for a digit, +10 for
`dup_penalty == 0`; description: +15 for length at least 200, +10 for a
chapter marker, +10 for a link; engagement: `floor(min(lr,5)/5*18)` plus
`floor(min(cr,1)/1*7)`), clamped to at most 100 and never negative, with a
missing (`None`/`NaN`) or negative like/comment rate treated as 0. -/
theorem seo_score_row_spec (title desc : Str) (like_rate comment_rate : Option ℚ)
    (dup_penalty : ℤ) :
    (seo_score_row title desc like_rate comment_rate dup_penalty).1 =
      min 100
        ((if 45 ≤ title.length ∧ title.length ≤ 70 then 12 else 0)
          + (if hasPowerWord title then 10 else 0)
          + (if hasNumber title then 8 else 0)
          + (if dup_penalty = 0 then 10 else 0)
          + ((if 200 ≤ desc.length then 15 else 0)
            + (if hasChapters desc then 10 else 0)
            + (if hasLink desc then 10 else 0))
          + ⌊min (max 0 (like_rate.getD 0)) 5 / 5 * 18⌋
          + ⌊min (max 0 (comment_rate.getD 0)) 1 / 1 * 7⌋)
    ∧ 0 ≤ (seo_score_row title desc like_rate comment_rate dup_penalty).1 := by
  have hlr : (0 : ℚ) ≤ min (max 0 (like_rate.getD 0)) 5 / 5 * 18 := by
    have h0 : (0 : ℚ) ≤ min (max 0 (like_rate.getD 0)) 5 :=
      le_min (le_max_left 0 _) (by norm_num)
    positivity
  have hcr : (0 : ℚ) ≤ min (max 0 (comment_rate.getD 0)) 1 / 1 * 7 := by
    have h0 : (0 : ℚ) ≤ min (max 0 (comment_rate.getD 0)) 1 :=
      le_min (le_max_left 0 _) (by norm_num)
    positivity
  constructor
  · simp only [seo_score_row]
    rw [pyTrunc_eq_floor _ hlr, pyTrunc_eq_floor _ hcr]
    simp only [Bool.and_eq_true, decide_eq_true_eq]
  · simp only [seo_score_row]
    have f1 : 0 ≤ pyTrunc (min (max 0 (like_rate.getD 0)) 5 / 5 * 18) := by
      rw [pyTrunc_eq_floor _ hlr]
      exact Int.floor_nonneg.mpr hlr
    have f2 : 0 ≤ pyTrunc (min (max 0 (comment_rate.getD 0)) 1 / 1 * 7) := by
      rw [pyTrunc_eq_floor _ hcr]
      exact Int.floor_nonneg.mpr hcr
    simp only [le_min_iff]
    refine ⟨by norm_num, ?_⟩
    split_ifs <;> omega


/-- Claim C5: for every video row with view count 0, the like rate and
comment rate computed by `engagement_rates` are undefined (`none`, never 0
and never a crash); for positive views with the count present they equal
`count / views * 100` rounded to 2 decimals. -/
theorem engagement_rates_spec (r : RawRow) :
    (r.views = 0 → engagement_rates r = (none, none))
    ∧ (0 < r.views →
        (engagement_rates r).1 =
          r.likes.map (fun c => round2 ((c : ℚ) / (r.views : ℚ) * 100))
        ∧ (engagement_rates r).2 =
          r.comments.map (fun c => round2 ((c : ℚ) / (r.views : ℚ) * 100))) := by
  constructor
  · intro h0
    cases hl : r.likes <;> cases hc : r.comments <;>
      simp [engagement_rates, rateCol, viewsRepl0, h0, hl, hc]
  · intro hpos
    have hv : r.views ≠ 0 := Nat.pos_iff_ne_zero.mp hpos
    constructor <;> (cases hl : r.likes <;> cases hc : r.comments <;>
      simp [engagement_rates, rateCol, viewsRepl0, hv, hl, hc])

/-- Claim C5 witness: a row with 0 views yields undefined rates; a row with
200 views and 5 likes yields a like rate of 2.5%. -/
theorem engagement_rates_spec_witness :
    engagement_rates ⟨[], [], 0, some 5, some 1⟩ = (none, none)
    ∧ (engagement_rates ⟨[], [], 200, some 5, some 1⟩).1 = some (5 / 2 : ℚ) := by
  constructor
  · exact (engagement_rates_spec ⟨[], [], 0, some 5, some 1⟩).1 rfl
  · rw [((engagement_rates_spec ⟨[], [], 200, some 5, some 1⟩).2 (by norm_num)).1]
    have h : round2 ((5 : ℚ) / (200 : ℚ) * 100) = 5 / 2 := by
      norm_num [round2, rhe, Int.fract]
    simp [h]

/-- Claim C6: the duplicate-word penalty equals `max(0, peak - 2)` over the
lowercase tokens of at least 3 characters from `[a-z']` with no stopword
filtering; it is 0 when no token occurs more than twice, and `n - 2` when
the most frequent token occurs `n > 2` times. -/
theorem dup_pen_spec (t : Str) :
    dup_pen t = max 0 ((peakFreq (pyTokens t) : ℤ) - 2)
    ∧ ((∀ w ∈ pyTokens t, countOcc w (pyTokens t) ≤ 2) → dup_pen t = 0)
    ∧ (∀ w n, 2 < n → countOcc w (pyTokens t) = n →
        (∀ w₂ ∈ pyTokens t, countOcc w₂ (pyTokens t) ≤ n) →
        dup_pen t = (n : ℤ) - 2) := by
  refine ⟨?_, ?_, ?_⟩
  · unfold dup_pen
    by_cases h : pyTokens t = []
    · simp [h, peakFreq]
    · simp [h, max_comm]
  · intro hall
    unfold dup_pen
    by_cases h : pyTokens t = []
    · simp [h]
    · have hle : peakFreq (pyTokens t) ≤ 2 := peakFreq_le _ _ hall
      simp only [h, if_false]
      omega
  · intro w n hn hcnt hall
    have hw : w ∈ pyTokens t := mem_of_countOcc_pos _ _ (by omega)
    have h1 : n ≤ peakFreq (pyTokens t) := hcnt ▸ le_peakFreq _ _ hw
    have h2 : peakFreq (pyTokens t) ≤ n := peakFreq_le _ _ hall
    have hpk : peakFreq (pyTokens t) = n := le_antisymm h2 h1
    have hne : pyTokens t ≠ [] := by
      intro h
      rw [h] at hw
      cases hw
    unfold dup_pen
    simp only [hne, if_false, hpk]
    omega

/-- Claim C6 witness: in "the cat the cat the" the token "the" occurs 3
times and every token occurs at most 3 times, so the penalty is 3 - 2 = 1;
the general formula also evaluates there. -/
theorem dup_pen_spec_witness :
    dup_pen ("the cat the cat the".toList) = (3 : ℤ) - 2 := by
  apply (dup_pen_spec _).2.2 ("the".toList) 3 (by norm_num) (by decide) (by decide)


/-- Claim C7: `improvements_for_video` returns a deduplicated list of at
most 6 tips in the fixed rule-evaluation order (digit, title too
short/long, power word, description length, chapters, link, zero comments,
views below `max(1000, 0.8*median)`), and exactly one fallback tip when no
rule fires. -/
theorem improvements_for_video_spec (v : TipInput) (m : ℤ) :
    (improvements_for_video v m).Nodup
    ∧ (improvements_for_video v m).length ≤ 6
    ∧ (firedTips v m = [] → improvements_for_video v m = [tipFallback])
    ∧ (firedTips v m ≠ [] →
        improvements_for_video v m = (ddAux [] (firedTips v m)).take 6) := by
  have he : codeTips v m = firedTips v m := codeTips_eq_firedTips v m
  unfold improvements_for_video
  rw [he]
  by_cases hout : (ddAux [] (firedTips v m)).take 6 = []
  · simp only [hout, if_pos rfl]
    refine ⟨by simp, by simp, fun _ => rfl, fun hne => ?_⟩
    exfalso
    obtain ⟨t, ts, hts⟩ : ∃ t ts, firedTips v m = t :: ts := by
      cases h : firedTips v m with
      | nil => exact absurd h hne
      | cons t ts => exact ⟨t, ts, rfl⟩
    rw [hts] at hout
    have := ddAux_ne_nil t ts
    cases hdd : ddAux [] (t :: ts) with
    | nil => exact this hdd
    | cons a l =>
      rw [hdd] at hout
      simp [List.take] at hout
  · simp only [hout, if_neg hout]
    refine ⟨?_, ?_, fun hnil => ?_, fun _ => rfl⟩
    · exact ((ddAux_spec (firedTips v m) []).2).sublist (List.take_sublist _ _)
    · calc ((ddAux [] (firedTips v m)).take 6).length
          = min 6 (ddAux [] (firedTips v m)).length := List.length_take _ _
        _ ≤ 6 := min_le_left _ _
    · exfalso
      apply hout
      rw [hnil]
      rfl

/-- Claim C7 witness: on a video whose title has no digit, every early rule
fires, and the theorem applies with a non-empty fired-rule list. -/
theorem improvements_for_video_spec_witness :
    firedTips ⟨("abc").toList, [], 0, 0⟩ 0 ≠ []
    ∧ improvements_for_video ⟨("abc").toList, [], 0, 0⟩ 0 =
        (ddAux [] (firedTips ⟨("abc").toList, [], 0, 0⟩ 0)).take 6 :=
  ⟨by decide, (improvements_for_video_spec _ _).2.2.2 (by decide)⟩

/-- Claim C8: `top_drop_insights` returns the empty list whenever the curve
is empty or the video duration is at most 0 seconds. -/
theorem top_drop_insights_empty (rows : List RetenRow) (video_secs : ℤ) (k : ℕ)
    (h : rows = [] ∨ video_secs ≤ 0) :
    top_drop_insights rows video_secs k = [] := by
  unfold top_drop_insights
  rw [if_pos h]

/-- Claim C8 witness: the empty curve and a zero duration both give no
insights. -/
theorem top_drop_insights_empty_witness :
    top_drop_insights [] 600 5 = []
    ∧ top_drop_insights [⟨0, 1⟩] 0 5 = [] :=
  ⟨top_drop_insights_empty [] 600 5 (Or.inl rfl),
   top_drop_insights_empty [⟨0, 1⟩] 0 5 (Or.inr (by norm_num))⟩

/-- Claim C10: on a non-empty curve with positive duration,
`top_drop_insights` returns exactly `min k n` insight lines; a selected
point whose watch-ratio change is zero or positive is still reported, with
its drop percentage clamped to `0.0`. -/
theorem top_drop_insights_count (rows : List RetenRow) (video_secs : ℤ) (k : ℕ)
    (hr : rows ≠ []) (hs : 0 < video_secs) :
    (top_drop_insights rows video_secs k).length = min k rows.length
    ∧ ∀ p ∈ nsmallestDrop rows k, 0 ≤ p.2 →
        insightLine video_secs p =
          "~0.0% viewers dropped near "
            ++ toString (rhe (p.1.elapsedR * (video_secs : ℚ))) ++ "s → "
            ++ retenTip (rhe (p.1.elapsedR * (video_secs : ℚ))) ++ "." := by
  have hcond : ¬ (rows = [] ∨ video_secs ≤ 0) := by
    push_neg
    exact ⟨hr, by omega⟩
  constructor
  · unfold top_drop_insights
    rw [if_neg hcond, List.length_map]
    unfold nsmallestDrop
    rw [List.length_take, sortAsc_length]
    unfold withDrop
    rw [List.length_zip]
    simp [diffFill0_length, List.length_map]
  · intro p _ hpos
    have hpct : max 0 (-p.2 * 100) = 0 := by
      apply max_eq_left
      nlinarith
    unfold insightLine
    simp only [hpct, fmt1_zero]
    rfl

/-- Claim C10 witness: on the three-point example curve with a 600 s video
and `k = 5`, exactly `min 5 3` insights are produced. -/
theorem top_drop_insights_count_witness :
    (top_drop_insights [⟨0, 1⟩, ⟨1 / 20, 19 / 20⟩, ⟨1 / 10, 2 / 5⟩] 600 5).length
      = min 5 3 :=
  (top_drop_insights_count _ _ _ (by decide) (by norm_num)).1

/-- Claim C3 (amended): for a FIXED ambient clock instant, `view_velocity`
is a pure function of its input rows and computes, per row,
`age_min = (now - published)/60` and
`views_per_min = round2(views / max(age_min, 1))`; the instant is read
from the wall clock inside the Python function, not passed to it. -/
theorem view_velocity_formula (now : ℤ) (rows : List VelRow) :
    view_velocity now rows = rows.map (fun r =>
      (r.published.map fun p => ((now - p : ℤ) : ℚ) / 60,
       r.published.map fun p =>
         round2 ((r.views : ℚ) / max (((now - p : ℤ) : ℚ) / 60) 1))) := by
  unfold view_velocity ageCol
  rw [zipWith_map_self]
  apply List.map_congr_left
  intro r _
  cases hp : r.published <;> simp [hp]

/-- Claim C3 counterexample: the output of `view_velocity` depends on the
ambient wall-clock instant (modelled by the first argument, which the
Python function reads via `datetime.now` instead of receiving): the same
input row gives different `views_per_min` two hours apart. -/
theorem view_velocity_reads_clock :
    view_velocity 7200 [⟨100, some 0⟩] ≠ view_velocity 14400 [⟨100, some 0⟩] := by
  intro h
  simp only [view_velocity, ageCol, List.map_cons, List.map_nil,
    List.zipWith_cons_cons, List.zipWith_nil_right, Option.map_some'] at h
  simp only [List.cons.injEq, Prod.mk.injEq, Option.some.injEq] at h
  obtain ⟨⟨h3, -⟩, -⟩ := h
  norm_num at h3

/-- Claim C9: the overall Channel Health score is the pillar scores
weighted by Content Optimization 25, Engagement 20, Consistency 15,
SEO/Discoverability 20, Retention 20, divided by 100, and the Retention
pillar is `min(100, 50 + 5*average_watch_time_hours)`. -/
theorem channel_health_overall (vs : List PdfVideo) :
    overallHealth vs =
      (25 * pillarContent vs + 20 * pillarEngagement vs + 15 * pillarConsistency
        + 20 * pillarSeoDisc vs + 20 * pillarRet vs) / 100
    ∧ pillarRet vs = min 100 (50 + 5 * avgWt vs) := by
  constructor
  · unfold overallHealth pillarsList weightOf
    simp
    ring
  · unfold pillarRet
    rw [mul_comm]

/-- Claim C2: the per-video health column equals, row by row,
`clip(z,-2,3)+2)/5*60 + clip(like_rate,0,5)*4 - clip(dup_penalty,0,3)*3 +
(5 if title length is 45-70 else 0)`, rounded to 1 decimal then clamped to
[0,100], with `z` the batch z-score of views-per-minute under the
population standard deviation and all z-scores 0 when that std is 0. -/
theorem health_100_spec (b : List HRow) :
    health_100 b = b.map (healthSpec b) := by
  unfold health_100 vpmZCol healthSpec vpm_zscore
  by_cases h : vpmStd b = 0
  · rw [if_pos h, zipWith_map_self]
    apply List.map_congr_left
    intro v _
    rw [if_pos h]
    cases htk : v.titleOk <;> norm_num
  · rw [if_neg h, zipWith_map_self]
    apply List.map_congr_left
    intro v _
    rw [if_neg h]
    cases htk : v.titleOk <;> norm_num

/-- Claim C4 (amended): for every non-empty list of parseable publish
timestamps the consistency score is the TRUNCATION (Python `int`, not
`round`) of `100*(0.7*freq_term + 0.3*stability_term)` with
`freq_term = min(1, uploads_week/3)` (1 when `uploads_week` is the `+inf`
of a zero median gap) and `stability_term = 1/(1+gap_stddev)`
(`gap_stddev` defaulting to 5.0 with fewer than 2 gaps); gaps of exactly
7 days repeated 5 times give `uploads_week = 1.0`, `median_gap_days = 7.0`
and `consistency = 53`. -/
theorem cadence_consistency_spec :
    (∀ ts : List (Option ℤ), parsedSorted ts ≠ [] →
      consistency100 ts =
        pyTruncR (100
          * (0.7 * (((uploadsWeek ts).elim 1 fun u => min 1 (u / 3) : ℚ) : ℝ)
            + 0.3 * (1 / (1 + gapStd ts)))))
    ∧ uploadsWeek
        [some 0, some 604800, some 1209600, some 1814400, some 2419200,
          some 3024000] = some 1
    ∧ medianGapDays
        [some 0, some 604800, some 1209600, some 1814400, some 2419200,
          some 3024000] = some 7
    ∧ consistency100
        [some 0, some 604800, some 1209600, some 1814400, some 2419200,
          some 3024000] = 53 := by
  have hp : parsedSorted
      [some 0, some 604800, some 1209600, some 1814400, some 2419200,
        some 3024000] =
      [0, 604800, 1209600, 1814400, 2419200, 3024000] := by
    norm_num [parsedSorted, sortAsc, insertAsc, List.filterMap_cons,
      List.filterMap_nil]
  have hg : gapsDays
      [some 0, some 604800, some 1209600, some 1814400, some 2419200,
        some 3024000] = [7, 7, 7, 7, 7] := by
    rw [gapsDays, hp]
    norm_num [List.zipWith]
  have hgn : gapsDays
      [some 0, some 604800, some 1209600, some 1814400, some 2419200,
        some 3024000] ≠ [] := by
    rw [hg]
    simp
  have hm : medianQ [(7 : ℚ), 7, 7, 7, 7] = 7 := by
    norm_num [medianQ, sortAsc, insertAsc, List.getD]
  have hu : uploadsWeek
      [some 0, some 604800, some 1209600, some 1814400, some 2419200,
        some 3024000] = some 1 := by
    rw [uploadsWeek, if_neg hgn, hg, hm]
    norm_num [round2, rhe, Int.fract]
  refine ⟨?_, hu, ?_, ?_⟩
  · intro ts hne
    rw [consistency100, if_neg hne, freqTerm]
    congr 1
    ring
  · rw [medianGapDays, if_neg hgn, hg, hm]
    norm_num [round2, rhe, Int.fract]
  · have hstd : gapStd
        [some 0, some 604800, some 1209600, some 1814400, some 2419200,
          some 3024000] = 0 := by
      rw [gapStd, if_neg (by rw [hg]; norm_num), hg]
      norm_num [sampleVarQ]
    have hfr : freqTerm
        [some 0, some 604800, some 1209600, some 1814400, some 2419200,
          some 3024000] = 1 / 3 := by
      rw [freqTerm, hu]
      norm_num [Option.elim]
    have hpn : parsedSorted
        [some 0, some 604800, some 1209600, some 1814400, some 2419200,
          some 3024000] ≠ [] := by
      rw [hp]
      simp
    rw [consistency100, if_neg hpn, hfr, hstd]
    rw [show ((0.7 * (((1 : ℚ) / 3 : ℚ) : ℝ) + 0.3 * (1 / (1 + 0))) * 100)
        = (((160 : ℚ) / 3 : ℚ) : ℝ) by push_cast; norm_num]
    rw [pyTruncR_ratCast]
    norm_num [pyTrunc]

/-- Claim C4 witness: the amended formula applies to a one-timestamp batch
(no gap, `gap_stddev` defaulted to 5). -/
theorem cadence_consistency_spec_witness :
    parsedSorted [some 0] ≠ []
    ∧ consistency100 [some 0] =
        pyTruncR (100
          * (0.7 * (((uploadsWeek [some 0]).elim 1 fun u => min 1 (u / 3) : ℚ) : ℝ)
            + 0.3 * (1 / (1 + gapStd [some 0])))) := by
  have h : parsedSorted [some 0] ≠ [] := by
    norm_num [parsedSorted, sortAsc, insertAsc, List.filterMap_cons,
      List.filterMap_nil]
  exact ⟨h, cadence_consistency_spec.1 [some 0] h⟩

/-- Claim C4 counterexample: three timestamps with two equal gaps of
20 160 000 s (700/3 days) make `100*(0.7*freq + 0.3*stability)` equal
30.7; the source truncates it to 30 (`int`), while the claimed `round`
gives 31. -/
theorem cadence_consistency_counterexample :
    consistency100 [some 0, some 20160000, some 40320000] = 30
    ∧ rheR (100 * (0.7 * ((freqTerm [some 0, some 20160000, some 40320000] : ℚ) : ℝ)
        + 0.3 * (1 / (1 + gapStd [some 0, some 20160000, some 40320000])))) = 31 := by
  have hp : parsedSorted [some 0, some 20160000, some 40320000] =
      [0, 20160000, 40320000] := by
    norm_num [parsedSorted, sortAsc, insertAsc, List.filterMap_cons,
      List.filterMap_nil]
  have hg : gapsDays [some 0, some 20160000, some 40320000] =
      [700 / 3, 700 / 3] := by
    rw [gapsDays, hp]
    norm_num [List.zipWith]
  have hgn : gapsDays [some 0, some 20160000, some 40320000] ≠ [] := by
    rw [hg]
    simp
  have hm : medianQ [(700 : ℚ) / 3, 700 / 3] = 700 / 3 := by
    norm_num [medianQ, sortAsc, insertAsc, List.getD]
  have hu : uploadsWeek [some 0, some 20160000, some 40320000]
      = some (3 / 100) := by
    rw [uploadsWeek, if_neg hgn, hg, hm]
    norm_num [round2, rhe, Int.fract]
  have hstd : gapStd [some 0, some 20160000, some 40320000] = 0 := by
    rw [gapStd, if_neg (by rw [hg]; norm_num), hg]
    norm_num [sampleVarQ]
  have hfr : freqTerm [some 0, some 20160000, some 40320000] = 1 / 100 := by
    rw [freqTerm, hu]
    norm_num [Option.elim]
  have hpn : parsedSorted [some 0, some 20160000, some 40320000] ≠ [] := by
    rw [hp]
    simp
  have hval : (0.7 * (((1 : ℚ) / 100 : ℚ) : ℝ) + 0.3 * (1 / (1 + 0))) * 100
      = (((307 : ℚ) / 10 : ℚ) : ℝ) := by
    push_cast
    norm_num
  constructor
  · rw [consistency100, if_neg hpn, hfr, hstd, hval, pyTruncR_ratCast]
    norm_num [pyTrunc]
  · rw [hfr, hstd]
    rw [show (100 * (0.7 * (((1 : ℚ) / 100 : ℚ) : ℝ) + 0.3 * (1 / (1 + 0))))
        = (((307 : ℚ) / 10 : ℚ) : ℝ) by push_cast; norm_num]
    rw [rheR_ratCast]
    norm_num [rhe, Int.fract]
    rw [Int.ceil_eq_iff]
    constructor <;> norm_num

end YTAudit
